import Mathlib

/-!
Verification of the budget-analyzer extraction/consolidation/validation pipeline.

Shallow embedding of the Python sources:
* `app/config/constants.py`   — currency normalization, MOP item-code grammar
* `app/services/pdf_extractor.py` — extraction orchestrator, dedup/validation, confidence
* `app/services/claude_analyzer.py` — budget corrections, consistency validation,
  multi-prompt orchestration, basic fallback analysis
* `app/api/endpoints/budget_analysis.py` — job progress sequences

Numbers are modelled as exact rationals (Python floats are used by the source only on
decimal literals and sums/products of document values; no claim here depends on binary
rounding).  Strings are Lean `String`s; Python `\d` is modelled as ASCII `Char.isDigit`.
-/

namespace BudgetAnalyzer

/-! ### constants.py : clean_currency_string -/

/-- Value of a digit list read left-to-right in base 10 (`float` integer-part parsing). -/
def digitsToNat (l : List Char) : Nat :=
  l.foldl (fun n c => 10 * n + (c.toNat - 48)) 0

/-- Model of Python `float(s)` restricted to strings over digits, `.` and `,`
(the only characters that survive the regex scrub in `clean_currency_string`):
it succeeds iff every character is a digit or a dot, there is at least one digit,
and there is at most one dot; the value is the decimal value of the string. -/
def pyFloatOfDigits? (l : List Char) : Option ℚ :=
  if l.any (fun c => c.isDigit) = false then none
  else if l.all (fun c => c.isDigit || c == '.') = false then none
  else if 1 < l.count '.' then none
  else
    let intPart := l.takeWhile (fun c => c ≠ '.')
    let fracPart := (l.dropWhile (fun c => c ≠ '.')).drop 1
    some ((digitsToNat intPart : ℚ) + (digitsToNat fracPart : ℚ) / (10 : ℚ) ^ fracPart.length)

/-- Separator-disambiguation step of `clean_currency_string` (the `if`/`elif` ladder on
the scrubbed string): with both separators present the comma is decimal; with only
commas, 3 trailing digits means thousands separator, else decimal. -/
def disambiguateSeparators (cleaned : List Char) : List Char :=
  if cleaned.contains ',' && cleaned.contains '.' then
    (cleaned.filter (fun c => c ≠ '.')).map (fun c => if c = ',' then '.' else c)
  else if cleaned.contains ',' then
    if ((cleaned.splitOn ',').getLastD []).length = 3 then
      cleaned.filter (fun c => c ≠ ',')
    else
      cleaned.map (fun c => if c = ',' then '.' else c)
  else cleaned

/-- `constants.clean_currency_string`: scrub everything but digits/commas/dots, then
disambiguate Chilean thousands/decimal separators, then parse; parse failure yields 0. -/
def clean_currency_string (value : String) : ℚ :=
  if value = "" then 0
  else
    let cleaned := value.toList.filter (fun c => c.isDigit || c == ',' || c == '.')
    (pyFloatOfDigits? (disambiguateSeparators cleaned)).getD 0

/-! ### constants.py : is_valid_mop_code -/

/-- Python `re` semantics for a pattern `^body$` under `re.match`: the body must match
the whole string, or the whole string minus one trailing newline. -/
def matchDollarEnd (p : List Char → Bool) (l : List Char) : Bool :=
  p l || (decide (l ≠ []) && (l.getLast? == some '\n') && p l.dropLast)

/-- Body of `^7\.\d{3}\.\d+[a-zA-Z]?$`. -/
def code7Body : List Char → Bool
  | '7' :: '.' :: rest =>
    (decide ((rest.take 3).length = 3) && (rest.take 3).all (fun c => c.isDigit)) &&
    (match rest.drop 3 with
     | '.' :: rest2 =>
       let ds := rest2.takeWhile (fun c => c.isDigit)
       let tail := rest2.drop ds.length
       (!ds.isEmpty) && (tail.isEmpty || (decide (tail.length = 1) && tail.all (fun c => c.isAlpha)))
     | _ => false)
  | _ => false

/-- Body of `^ETE\.\d+$`. -/
def codeETEBody : List Char → Bool
  | 'E' :: 'T' :: 'E' :: '.' :: rest => (!rest.isEmpty) && rest.all (fun c => c.isDigit)
  | _ => false

/-- Body of `^\d{3,4}-\d+$`. -/
def codeDashBody (l : List Char) : Bool :=
  let ds := l.takeWhile (fun c => c.isDigit)
  (decide (ds.length = 3) || decide (ds.length = 4)) &&
  (match l.drop ds.length with
   | '-' :: rest => (!rest.isEmpty) && rest.all (fun c => c.isDigit)
   | _ => false)

/-- `constants.is_valid_mop_code`: empty string is invalid; otherwise one of the three
anchored patterns must match. -/
def is_valid_mop_code (code : String) : Bool :=
  if code = "" then false
  else
    matchDollarEnd code7Body code.toList
    || matchDollarEnd codeETEBody code.toList
    || matchDollarEnd codeDashBody code.toList

/-! ### pdf_extractor.py : line items, deduplication, validation -/

/-- A raw budget line item as produced by the extraction strategies
(`codigo_mop`/`descripcion`/`unidad`/`cantidad`/`precio_unitario`/`subtotal`). -/
structure BudgetItem where
  codigo_mop : String
  descripcion : String
  unidad : String
  cantidad : ℚ
  precio_unitario : ℚ
  subtotal : ℚ
deriving DecidableEq, Repr

/-- The dedup key used by `_deduplicate_budget_items`:
`(item.get("codigo_mop", ""), item.get("descripcion", "")[:50])`. -/
def itemKey (it : BudgetItem) : String × String :=
  (it.codigo_mop, it.descripcion.take 50)

/-- Loop body of `_deduplicate_budget_items`: walk the list keeping each item whose
key has not been seen yet (first occurrence wins), threading the `seen` set. -/
def dedupAux (seen : List (String × String)) : List BudgetItem → List BudgetItem
  | [] => []
  | it :: rest =>
    if itemKey it ∈ seen then dedupAux seen rest
    else it :: dedupAux (itemKey it :: seen) rest

/-- `MOPPDFExtractor._deduplicate_budget_items`. -/
def _deduplicate_budget_items (items : List BudgetItem) : List BudgetItem :=
  dedupAux [] items

/-- `settings.MAX_UNIT_PRICE` (default 10,000,000 CLP). -/
def MAX_UNIT_PRICE : ℚ := 10000000

/-- `MOPPDFExtractor._validate_budget_items`: keep items with a valid MOP code,
positive quantity and unit price, and unit price within the sanity ceiling. -/
def _validate_budget_items (items : List BudgetItem) : List BudgetItem :=
  items.filter (fun it =>
    is_valid_mop_code it.codigo_mop
    && decide (0 < it.precio_unitario) && decide (0 < it.cantidad)
    && decide (it.precio_unitario ≤ MAX_UNIT_PRICE))

/-! ### pdf_extractor.py : orchestrator -/

/-- A processed table (only identity fields are relevant to the claims;
row payloads live in the extracted `budget_items`). -/
structure ProcessedTable where
  page : Nat
  table_index : Nat
  headers : List String
deriving DecidableEq, Repr

/-- Result dict of one extraction method (`success`, `text`, `tables`, `budget_items`).
A method that raises is modelled as `none` at the call site. -/
structure MethodResult where
  success : Bool
  text : String
  tables : List ProcessedTable
  budget_items : List BudgetItem
deriving Repr

/-- The `results` accumulator dict of `extract_comprehensive`. -/
structure ExtractionResults where
  text_content : String
  tables : List ProcessedTable
  budget_items : List BudgetItem
  project_info : List (String × String)
  totals : List (String × ℚ)
  confidence_score : ℚ
deriving Repr

/-- The `results` dict as initialized at the top of `extract_comprehensive`. -/
def initResults : ExtractionResults :=
  { text_content := "", tables := [], budget_items := [], project_info := [],
    totals := [], confidence_score := 0 }

/-- `MOPPDFExtractor._merge_results`: skip unsuccessful results; concatenate text
(with a blank-line separator when both sides are non-empty), extend tables and items. -/
def _merge_results (main : ExtractionResults) (m : MethodResult) : ExtractionResults :=
  if m.success = false then main
  else
    let r1 :=
      if m.text ≠ "" then
        if main.text_content ≠ "" then
          { main with text_content := main.text_content ++ "\n\n" ++ m.text }
        else { main with text_content := m.text }
      else main
    let r2 := if m.tables ≠ [] then { r1 with tables := r1.tables ++ m.tables } else r1
    if m.budget_items ≠ [] then { r2 with budget_items := r2.budget_items ++ m.budget_items }
    else r2

/-- One iteration of the primary-method loop in `extract_comprehensive`: a method that
threw (`none`) is skipped, a result is merged only when `success` is set. -/
def mergeStep (acc : ExtractionResults) (m : Option MethodResult) : ExtractionResults :=
  match m with
  | none => acc
  | some mr => if mr.success then _merge_results acc mr else acc

/-- Step 3 of `extract_comprehensive`: run the primary methods in order, merging each
successful result. -/
def foldPrimary (methods : List (Option MethodResult)) : ExtractionResults :=
  methods.foldl mergeStep initResults

/-- `MOPPDFExtractor._needs_fallback`: too little text AND too few tables AND too few items. -/
def _needs_fallback (r : ExtractionResults) : Bool :=
  decide (r.text_content.length < 1000)
  && decide (r.tables.length < 2)
  && decide (r.budget_items.length < 5)

/-- Page indices processed by `_extract_with_ocr`: `range(min(5, len(doc)))`. -/
def ocr_page_range (total_pages : Nat) : List Nat :=
  List.range (min 5 total_pages)

/-- `MOPPDFExtractor._post_process_results`.  The regex extraction of project info and
totals from the concatenated text is kept abstract as the two function parameters
(`_extract_project_info` / `_extract_totals`); it runs only on non-empty text. -/
def _post_process_results (extract_pi : String → List (String × String))
    (extract_totals : String → List (String × ℚ)) (r : ExtractionResults) :
    ExtractionResults :=
  let r1 :=
    if r.text_content ≠ "" then
      { r with project_info := extract_pi r.text_content,
               totals := extract_totals r.text_content }
    else r
  { r1 with budget_items := _validate_budget_items (_deduplicate_budget_items r1.budget_items) }

/-- `MOPPDFExtractor._calculate_confidence`: weighted, saturating signals, capped at 1. -/
def _calculate_confidence (r : ExtractionResults) : ℚ :=
  let score : ℚ :=
    (if 1000 < r.text_content.length then 3/10 else 0)
    + (if 0 < r.tables.length then 3/10 else 0)
    + (if 10 < r.budget_items.length then 3/10
       else if 5 < r.budget_items.length then 2/10
       else if 0 < r.budget_items.length then 1/10 else 0)
    + (if r.project_info ≠ [] then 1/10 else 0)
  min 1 score

/-- Step 4 of `extract_comprehensive`: when `_needs_fallback` holds, run the OCR
fallback method and merge its result under the same success rule as the primary loop. -/
def runFallback (r : ExtractionResults) (ocr : Option MethodResult) : ExtractionResults :=
  if _needs_fallback r then
    match ocr with
    | none => r
    | some o => if o.success then _merge_results r o else r
  else r

/-- Step 6 of `extract_comprehensive`: write the final confidence score. -/
def finalizeResults (r : ExtractionResults) : ExtractionResults :=
  { r with confidence_score := _calculate_confidence r }

/-- `MOPPDFExtractor.extract_comprehensive` (content-level model).  `pdf_valid` is the
outcome of `_validate_pdf`; when it is false the raised error is caught and the initial
`results` dict is returned.  `primary` are the four primary method outcomes in order,
`ocr` the OCR-fallback outcome.  The second component records whether the fallback
branch ran (`_needs_fallback` on the merged primary results). -/
def extract_comprehensive (pdf_valid : Bool) (primary : List (Option MethodResult))
    (ocr : Option MethodResult) (extract_pi : String → List (String × String))
    (extract_totals : String → List (String × ℚ)) : ExtractionResults × Bool :=
  if pdf_valid = false then (initResults, false)
  else
    (finalizeResults (_post_process_results extract_pi extract_totals
        (runFallback (foldPrimary primary) ocr)),
     _needs_fallback (foldPrimary primary))

/-! ### claude_analyzer.py : budget corrections (financial reconciler) -/

/-- `presupuesto_estimado` block written by `_apply_budget_corrections`. -/
structure PresupuestoEstimado where
  total_clp : ℚ
  materials_percentage : ℚ
  labor_percentage : ℚ
  equipment_percentage : ℚ
  overhead_percentage : ℚ
deriving DecidableEq, Repr

/-- `desglose_costos_detallado.costos_directos`. -/
structure CostosDirectos where
  materiales : ℚ
  mano_obra : ℚ
  equipos : ℚ
  subcontratos : ℚ
  total : ℚ
deriving DecidableEq, Repr

/-- `desglose_costos_detallado.costos_indirectos`. -/
structure CostosIndirectos where
  gastos_generales : ℚ
  utilidad : ℚ
  contingencia : ℚ
  total : ℚ
deriving DecidableEq, Repr

/-- `desglose_costos_detallado.impuestos`. -/
structure Impuestos where
  subtotal : ℚ
  iva : ℚ
  total_final : ℚ
deriving DecidableEq, Repr

/-- `desglose_costos_detallado` block written by `_apply_budget_corrections`. -/
structure DesgloseCostos where
  costos_directos : CostosDirectos
  costos_indirectos : CostosIndirectos
  impuestos : Impuestos
deriving DecidableEq, Repr

/-- Sum of `item.get("subtotal", 0)` over a detail list. -/
def sumSubtotals (items : List BudgetItem) : ℚ :=
  (items.map (fun it => it.subtotal)).sum

/-- `ClaudeAnalyzer._apply_budget_corrections`: re-derive category totals from the
detail lists (falling back to a fixed 45/30/25 split of the extracted gross total when
all three are zero), then apply the fixed Chilean costing formula. -/
def _apply_budget_corrections (materiales mano_obra equipos : List BudgetItem)
    (total_bruto : ℚ) : PresupuestoEstimado × DesgloseCostos :=
  let materiales_total := sumSubtotals materiales
  let mano_obra_total := sumSubtotals mano_obra
  let equipos_total := sumSubtotals equipos
  let totals :=
    if materiales_total = 0 ∧ mano_obra_total = 0 ∧ equipos_total = 0 then
      if 0 < total_bruto then
        (total_bruto * (45/100), total_bruto * (30/100), total_bruto * (25/100))
      else (materiales_total, mano_obra_total, equipos_total)
    else (materiales_total, mano_obra_total, equipos_total)
  let mt := totals.1
  let mo := totals.2.1
  let eq := totals.2.2
  let costos_directos := mt + mo + eq
  let gastos_generales := costos_directos * (12/100)
  let base_utilidad := costos_directos + gastos_generales
  let utilidad := base_utilidad * (10/100)
  let contingencia := costos_directos * (5/100)
  let subtotal := costos_directos + gastos_generales + utilidad + contingencia
  let iva := subtotal * (19/100)
  let total_final := subtotal + iva
  ({ total_clp := total_final
     materials_percentage := if 0 < costos_directos then mt / costos_directos * 100 else 0
     labor_percentage := if 0 < costos_directos then mo / costos_directos * 100 else 0
     equipment_percentage := if 0 < costos_directos then eq / costos_directos * 100 else 0
     overhead_percentage :=
       if 0 < costos_directos then
         (gastos_generales + utilidad + contingencia) / costos_directos * 100
       else 0 },
   { costos_directos :=
       { materiales := mt, mano_obra := mo, equipos := eq, subcontratos := 0,
         total := costos_directos }
     costos_indirectos :=
       { gastos_generales := gastos_generales, utilidad := utilidad,
         contingencia := contingencia,
         total := gastos_generales + utilidad + contingencia }
     impuestos := { subtotal := subtotal, iva := iva, total_final := total_final } })

/-! ### claude_analyzer.py : consistency validation -/

/-- Validation report returned by `_validate_budget_consistency`. -/
structure ValidationResult where
  is_valid : Bool
  warnings : List String
  errors : List String
  confidence_score : ℤ
deriving Repr

/-- `ClaudeAnalyzer._validate_budget_consistency`: compare the asserted totals against
recomputation within fixed absolute tolerances; the confidence score is
`max(0, 100 - 25*len(errors) - 10*len(warnings))`.  Warning/error texts are the fixed
message stems (the source interpolates the offending values into them). -/
def _validate_budget_consistency (presupuesto_total : ℚ) (imp : Impuestos)
    (materiales : List BudgetItem) : ValidationResult :=
  let totalWarnings : List String :=
    if 1000 < |presupuesto_total - imp.total_final| then ["Diferencia en totales"] else []
  let errors : List String :=
    if 100 < |imp.iva - imp.subtotal * (19/100)| then ["IVA incorrecto"] else []
  let itemWarnings : List String :=
    materiales.filterMap (fun it =>
      if 0 < it.cantidad ∧ 0 < it.precio_unitario
          ∧ 100 < |it.subtotal - it.cantidad * it.precio_unitario| then
        some ("Calculo item " ++ it.codigo_mop)
      else none)
  let warnings := totalWarnings ++ itemWarnings
  { is_valid := errors.isEmpty
    warnings := warnings
    errors := errors
    confidence_score := max 0 (100 - (errors.length : ℤ) * 25 - (warnings.length : ℤ) * 10) }

/-! ### claude_analyzer.py : multi-prompt orchestration and basic fallback -/

/-- Payload of a successful budget prompt: the detail lists that
`_apply_budget_corrections` sums. -/
structure PromptData where
  materiales_detallados : List BudgetItem
  mano_obra_detallada : List BudgetItem
  equipos_maquinaria_detallados : List BudgetItem
deriving Repr

/-- Outcome of one `_execute_claude_prompt` call (a call that returns `None` after
exhausting retries is modelled as `none` at the use site). -/
structure PromptResult where
  success : Bool
  data : PromptData
deriving Repr

/-- The `analysis_results` dict of `_multi_prompt_analysis` plus the list of prompts
actually sent (each entry is one `_execute_claude_prompt` call, in order). -/
structure MultiPromptResults where
  budget_analysis : Option PromptResult
  risk_analysis : Option PromptResult
  provider_analysis : Option PromptResult
  executed_prompts : List String
deriving Repr

/-- Store rule `if result and result.get("success"): keep it`. -/
def storeIfSuccess (r : Option PromptResult) : Option PromptResult :=
  match r with
  | none => none
  | some pr => if pr.success then some pr else none

/-- `ClaudeAnalyzer._multi_prompt_analysis`: the budget prompt always runs; the risk and
provider prompts run whenever `analysis_depth` is `full` or `detailed`, with no check of
the budget outcome.  The oracle arguments give each prompt call result. -/
def _multi_prompt_analysis (analysis_depth : String)
    (budget risk provider : Option PromptResult) : MultiPromptResults :=
  if analysis_depth = "full" ∨ analysis_depth = "detailed" then
    { budget_analysis := storeIfSuccess budget
      risk_analysis := storeIfSuccess risk
      provider_analysis := storeIfSuccess provider
      executed_prompts := ["budget", "risk", "provider"] }
  else
    { budget_analysis := storeIfSuccess budget
      risk_analysis := none
      provider_analysis := none
      executed_prompts := ["budget"] }

/-- The slice of `processed_content` consumed by `_create_basic_analysis` and
`_consolidate_and_correct_analysis`. -/
structure ProcessedContent where
  total_bruto : ℚ
  processed_items : List BudgetItem
deriving Repr

/-- A fixed recommendation entry (`categoria`, `recomendacion`, `prioridad`). -/
structure Recomendacion where
  categoria : String
  recomendacion : String
  prioridad : String
deriving DecidableEq, Repr

/-- The fields of the `_create_basic_analysis` result that the claims observe. -/
structure BasicAnalysis where
  total_clp : ℚ
  recomendaciones_especificas : List Recomendacion
  riesgo_factors : List String
  confidence_score : ℤ
  analysis_type : String
deriving Repr

/-- `ClaudeAnalyzer._create_basic_analysis`: fallback when the budget prompt failed —
estimated total from the extracted gross total (or the item subtotals when that is 0),
one generic risk, one high-priority manual-review recommendation, confidence 40. -/
def _create_basic_analysis (pc : ProcessedContent) : BasicAnalysis :=
  let estimated_total :=
    if pc.total_bruto = 0 then sumSubtotals pc.processed_items else pc.total_bruto
  { total_clp := estimated_total
    recomendaciones_especificas :=
      [{ categoria := "técnica", recomendacion := "Revisar análisis manualmente",
         prioridad := "alta" }]
    riesgo_factors := ["Análisis básico - Revisión manual recomendada"]
    confidence_score := 40
    analysis_type := "basic_fallback" }

/-- Consolidated outcome: either the corrected analysis built from the budget prompt
payload, or the basic fallback analysis. -/
inductive ConsolidatedAnalysis where
  | corrected (p : PresupuestoEstimado) (d : DesgloseCostos)
  | basic (b : BasicAnalysis)
deriving Repr

/-- `ClaudeAnalyzer._consolidate_and_correct_analysis`: when the budget analysis is
missing or unsuccessful the basic fallback is returned (risk/provider results are only
merged into a successful budget analysis and never rescue a failed one). -/
def _consolidate_and_correct_analysis (m : MultiPromptResults) (pc : ProcessedContent) :
    ConsolidatedAnalysis :=
  match m.budget_analysis with
  | none => .basic (_create_basic_analysis pc)
  | some pr =>
    if pr.success = false then .basic (_create_basic_analysis pc)
    else
      let (p, d) := _apply_budget_corrections pr.data.materiales_detallados
        pr.data.mano_obra_detallada pr.data.equipos_maquinaria_detallados pc.total_bruto
      .corrected p d

/-! ### budget_analysis.py : job progress sequences -/

/-- The sequence of `progress` values written to the status record during one
single-document run: 0 at registration, then `process_pdf_analysis` writes 10, 50 and
100; a failing step raises and skips the remaining writes (the error update does not
touch `progress`). -/
def single_pdf_progress (extract_ok analyze_ok : Bool) : List ℤ :=
  [0, 10] ++ if extract_ok then [50] ++ (if analyze_ok then [100] else []) else []

/-- The sequence of `progress` values written during one batch run of `n` documents by
`process_multiple_pdfs_analysis`: 0 at registration, 5, then
`int(5 + idx * (40 / n))` at the top of each per-file iteration (failed files only skip
the extraction, not the write), then 45, 50 and 100 on the surviving path. -/
def multi_pdf_progress (n : Nat) (content_ok analyze_ok : Bool) : List ℤ :=
  [0, 5]
    ++ (List.range n).map (fun idx : Nat => ⌊(5 : ℚ) + (idx : ℚ) * (40 / (n : ℚ))⌋)
    ++ (if content_ok then [45, 50] ++ (if analyze_ok then [100] else []) else [])

/-! ### Spec-side definitions used to state claims -/

/-- Modelled from the spec: the completeness score of a line item, the count of
non-empty / non-zero fields.  The source has no such function (`_deduplicate_budget_items`
never consults completeness); this definition only states the claim. -/
def completenessScore (it : BudgetItem) : Nat :=
  (if it.codigo_mop ≠ "" then 1 else 0) + (if it.descripcion ≠ "" then 1 else 0)
    + (if it.unidad ≠ "" then 1 else 0) + (if it.cantidad ≠ 0 then 1 else 0)
    + (if it.precio_unitario ≠ 0 then 1 else 0) + (if it.subtotal ≠ 0 then 1 else 0)

/-- First-seen-wins characterization of deduplication: keep the head, drop every later
item with the same `(code, description-prefix)` key, recurse. -/
def keepFirstByKey : List BudgetItem → List BudgetItem
  | [] => []
  | it :: rest =>
    it :: keepFirstByKey (rest.filter (fun x => decide (itemKey x ≠ itemKey it)))
termination_by l => l.length
decreasing_by
  simp_wf
  exact Nat.lt_succ_of_le (List.length_filter_le _ _)

/-- An extraction method call that did not succeed: it either threw (`none`) or
returned a result with `success = False`. -/
def methodFailed (m : Option MethodResult) : Prop :=
  ∀ mr, m = some mr → mr.success = false

/-! ### Helper lemmas -/

/-- `float` fails on a scrubbed string containing no digit. -/
theorem pyFloat_none_of_no_digit (l : List Char) (h : ∀ c ∈ l, c.isDigit = false) :
    pyFloatOfDigits? l = none := by
  have ha : l.any (fun c => c.isDigit) = false := by
    simp only [List.any_eq_false]
    intro c hc
    simp [h c hc]
  simp [pyFloatOfDigits?, ha]

/-- `float` fails on a scrubbed string containing two or more dots. -/
theorem pyFloat_none_of_two_dots (l : List Char) (h : 1 < l.count '.') :
    pyFloatOfDigits? l = none := by
  unfold pyFloatOfDigits?
  split_ifs <;> rfl

/-- The separator-disambiguation step never introduces a digit. -/
theorem disambiguate_no_digit (l : List Char) (h : ∀ c ∈ l, c.isDigit = false) :
    ∀ c ∈ disambiguateSeparators l, c.isDigit = false := by
  intro c hc
  unfold disambiguateSeparators at hc
  split_ifs at hc with h1 h2 h3
  · rcases List.mem_map.mp hc with ⟨a, ha, rfl⟩
    have hna := h a (List.mem_of_mem_filter ha)
    by_cases he : a = ',' <;> simp [he, hna]
  · exact h c (List.mem_of_mem_filter hc)
  · rcases List.mem_map.mp hc with ⟨a, ha, rfl⟩
    have hna := h a ha
    by_cases he : a = ',' <;> simp [he, hna]
  · exact h c hc

/-! ### Claim theorems -/

/-- C5: the currency normalizer maps `1.234.567,50` to 1234567.50 and `1,234,567` to
1234567, and maps every string from which no number can be parsed (no digit at all
survives the scrub) to 0. -/
theorem C5_clean_currency_scenarios :
    clean_currency_string "1.234.567,50" = 2469135 / 2 ∧
    clean_currency_string "1,234,567" = 1234567 ∧
    ∀ s : String, (∀ c ∈ s.toList, c.isDigit = false) → clean_currency_string s = 0 := by
  refine ⟨?_, ?_, ?_⟩
  · have hlist : disambiguateSeparators
        ("1.234.567,50".toList.filter (fun c => c.isDigit || c == ',' || c == '.'))
        = ['1', '2', '3', '4', '5', '6', '7', '.', '5', '0'] := by decide
    simp only [clean_currency_string]
    rw [if_neg (by decide), hlist, pyFloatOfDigits?]
    rw [if_neg (by decide), if_neg (by decide), if_neg (by decide)]
    have h1 : digitsToNat (['1', '2', '3', '4', '5', '6', '7', '.', '5', '0'].takeWhile
        (fun c => c ≠ '.')) = 1234567 := by decide
    have h2 : digitsToNat ((['1', '2', '3', '4', '5', '6', '7', '.', '5', '0'].dropWhile
        (fun c => c ≠ '.')).drop 1) = 50 := by decide
    have h3 : ((['1', '2', '3', '4', '5', '6', '7', '.', '5', '0'].dropWhile
        (fun c => c ≠ '.')).drop 1).length = 2 := by decide
    simp only [h1, h2, h3, Option.getD_some]
    norm_num
  · have hlist : disambiguateSeparators
        ("1,234,567".toList.filter (fun c => c.isDigit || c == ',' || c == '.'))
        = ['1', '2', '3', '4', '5', '6', '7'] := by decide
    simp only [clean_currency_string]
    rw [if_neg (by decide), hlist, pyFloatOfDigits?]
    rw [if_neg (by decide), if_neg (by decide), if_neg (by decide)]
    have h1 : digitsToNat (['1', '2', '3', '4', '5', '6', '7'].takeWhile
        (fun c => c ≠ '.')) = 1234567 := by decide
    have h2 : digitsToNat ((['1', '2', '3', '4', '5', '6', '7'].dropWhile
        (fun c => c ≠ '.')).drop 1) = 0 := by decide
    have h3 : ((['1', '2', '3', '4', '5', '6', '7'].dropWhile
        (fun c => c ≠ '.')).drop 1).length = 0 := by decide
    simp only [h1, h2, h3, Option.getD_some]
    norm_num
  intro s h
  by_cases hs : s = ""
  · simp [clean_currency_string, hs]
  · have hclean : ∀ c ∈ s.toList.filter (fun c => c.isDigit || c == ',' || c == '.'),
        c.isDigit = false := fun c hc => h c (List.mem_of_mem_filter hc)
    have hnone : pyFloatOfDigits? (disambiguateSeparators
        (s.toList.filter (fun c => c.isDigit || c == ',' || c == '.'))) = none :=
      pyFloat_none_of_no_digit _ (disambiguate_no_digit _ hclean)
    simp only [clean_currency_string, if_neg hs]
    show (pyFloatOfDigits? (disambiguateSeparators
        (s.toList.filter (fun c => c.isDigit || c == ',' || c == '.')))).getD 0 = 0
    rw [hnone]
    rfl

/-- Witness for C5: a digit-free string normalizes to 0. -/
theorem C5_clean_currency_scenarios_witness :
    clean_currency_string "sin monto $" = 0 :=
  C5_clean_currency_scenarios.2.2 "sin monto $" (by decide)

/-- C10: a string with two or more dots and no comma (dot-grouped thousands format)
normalizes to 0, not to the grouped integer value. -/
theorem C10_dot_grouped_parses_to_zero (s : String)
    (h2 : 2 ≤ s.toList.count '.') (h0 : s.toList.count ',' = 0) :
    clean_currency_string s = 0 := by
  have hs : ¬ s = "" := by
    intro e
    rw [e] at h2
    simp at h2
  have hnotmem : ',' ∉ s.toList := by
    intro hmem
    have := List.count_pos_iff.mpr hmem
    omega
  have hdotcount : (s.toList.filter (fun c => c.isDigit || c == ',' || c == '.')).count '.'
      = s.toList.count '.' := by
    apply List.count_filter
    decide
  have hcontains : (s.toList.filter
      (fun c => c.isDigit || c == ',' || c == '.')).contains ',' = false := by
    rw [Bool.eq_false_iff]
    intro hc
    exact hnotmem (List.mem_of_mem_filter (List.elem_iff.mp hc))
  have hdisamb : disambiguateSeparators
      (s.toList.filter (fun c => c.isDigit || c == ',' || c == '.'))
      = s.toList.filter (fun c => c.isDigit || c == ',' || c == '.') := by
    unfold disambiguateSeparators
    rw [hcontains]
    simp
  rw [clean_currency_string, if_neg hs]
  show (pyFloatOfDigits? (disambiguateSeparators
      (s.toList.filter (fun c => c.isDigit || c == ',' || c == '.')))).getD 0 = 0
  rw [hdisamb, pyFloat_none_of_two_dots]
  · rfl
  · rw [hdotcount]
    omega

/-- Witness for C10 at the concrete string of the claim. -/
theorem C10_dot_grouped_parses_to_zero_witness :
    2 ≤ "$ 1.234.567".toList.count '.' ∧ "$ 1.234.567".toList.count ',' = 0 ∧
      clean_currency_string "$ 1.234.567" = 0 :=
  ⟨by decide, by decide, C10_dot_grouped_parses_to_zero "$ 1.234.567" (by decide) (by decide)⟩

/-- C1: for every direct-cost total computed from the detail items, the corrected
breakdown satisfies overhead = D×0.12, profit = (D+overhead)×0.10, contingency = D×0.05,
subtotal = D+overhead+profit+contingency, tax = subtotal×0.19 and
grand_total = subtotal+tax; with D = 1,000,000 the concrete figures of the spec follow. -/
theorem C1_reconciler_costing_formula :
    (∀ (materiales mano_obra equipos : List BudgetItem) (total_bruto : ℚ),
      let d := (_apply_budget_corrections materiales mano_obra equipos total_bruto).2
      d.costos_indirectos.gastos_generales = d.costos_directos.total * (12 / 100) ∧
      d.costos_indirectos.utilidad
        = (d.costos_directos.total + d.costos_indirectos.gastos_generales) * (10 / 100) ∧
      d.costos_indirectos.contingencia = d.costos_directos.total * (5 / 100) ∧
      d.impuestos.subtotal
        = d.costos_directos.total + d.costos_indirectos.gastos_generales
          + d.costos_indirectos.utilidad + d.costos_indirectos.contingencia ∧
      d.impuestos.iva = d.impuestos.subtotal * (19 / 100) ∧
      d.impuestos.total_final = d.impuestos.subtotal + d.impuestos.iva) ∧
    (_apply_budget_corrections
        [{ codigo_mop := "7.301.1", descripcion := "Item directo", unidad := "gl",
           cantidad := 1, precio_unitario := 1000000, subtotal := 1000000 }] [] [] 0).2
      = { costos_directos := { materiales := 1000000, mano_obra := 0, equipos := 0,
                               subcontratos := 0, total := 1000000 }
          costos_indirectos := { gastos_generales := 120000, utilidad := 112000,
                                 contingencia := 50000, total := 282000 }
          impuestos := { subtotal := 1282000, iva := 243580, total_final := 1525580 } } := by
  constructor
  · intro materiales mano_obra equipos total_bruto
    exact ⟨rfl, rfl, rfl, rfl, rfl, rfl⟩
  · simp only [_apply_budget_corrections, sumSubtotals, List.map_cons, List.map_nil,
      List.sum_cons, List.sum_nil]
    norm_num [DesgloseCostos.mk.injEq, CostosDirectos.mk.injEq, CostosIndirectos.mk.injEq,
      Impuestos.mk.injEq]

/-- C4: the Reconciler confidence score equals `max(0, 100 − 25·errors − 10·warnings)`
and lies in [0,100]; the extraction confidence score always lies in [0,1]. -/
theorem C4_confidence_scores_bounded :
    (∀ (presupuesto_total : ℚ) (imp : Impuestos) (materiales : List BudgetItem),
      (_validate_budget_consistency presupuesto_total imp materiales).confidence_score
        = max 0 (100
            - 25 * ((_validate_budget_consistency presupuesto_total imp materiales).errors.length : ℤ)
            - 10 * ((_validate_budget_consistency presupuesto_total imp materiales).warnings.length : ℤ)) ∧
      0 ≤ (_validate_budget_consistency presupuesto_total imp materiales).confidence_score ∧
      (_validate_budget_consistency presupuesto_total imp materiales).confidence_score ≤ 100) ∧
    (∀ r : ExtractionResults,
      0 ≤ _calculate_confidence r ∧ _calculate_confidence r ≤ 1) := by
  constructor
  · intro pt imp mats
    simp only [_validate_budget_consistency]
    refine ⟨?_, ?_, ?_⟩
    · congr 1
      ring
    · exact le_max_left _ _
    · apply max_le (by norm_num)
      omega
  · intro r
    simp only [_calculate_confidence]
    constructor
    · refine le_min (by norm_num) ?_
      split_ifs <;> norm_num
    · exact min_le_left _ _

/-- Invariant of the deduplication loop: the output is pairwise key-distinct and
contains no item whose key was already seen. -/
theorem dedupAux_pairwise_keys (items : List BudgetItem) : ∀ seen : List (String × String),
    (dedupAux seen items).Pairwise (fun a b => itemKey a ≠ itemKey b) ∧
    ∀ it ∈ dedupAux seen items, itemKey it ∉ seen := by
  induction items with
  | nil =>
    intro seen
    exact ⟨List.Pairwise.nil, by simp [dedupAux]⟩
  | cons x rest ih =>
    intro seen
    by_cases hx : itemKey x ∈ seen
    · simp only [dedupAux, if_pos hx]
      exact ih seen
    · simp only [dedupAux, if_neg hx]
      obtain ⟨hpw, hmem⟩ := ih (itemKey x :: seen)
      refine ⟨List.Pairwise.cons ?_ hpw, ?_⟩
      · intro b hb he
        exact hmem b hb (by rw [← he]; exact List.mem_cons_self _ _)
      · intro it hit
        rcases List.mem_cons.mp hit with rfl | hm
        · exact hx
        · exact fun hin => hmem it hm (List.mem_cons_of_mem _ hin)

/-- C2 (amended): the canonical set produced by deduplication followed by validation is
pairwise distinct on the dedup key `(item code, 50-char description prefix)` — not on the
item code alone. -/
theorem C2_canonical_keys_unique (items : List BudgetItem) :
    (_validate_budget_items (_deduplicate_budget_items items)).Pairwise
      (fun a b => itemKey a ≠ itemKey b) := by
  have h := (dedupAux_pairwise_keys items []).1
  exact List.Pairwise.sublist (List.filter_sublist _) h

/-- Witness for C2 (amended) at a concrete input. -/
theorem C2_canonical_keys_unique_witness :
    (_validate_budget_items (_deduplicate_budget_items
      [{ codigo_mop := "7.301.1", descripcion := "Limpieza Manual de la Faja",
         unidad := "km", cantidad := 1, precio_unitario := 1000, subtotal := 1000 },
       { codigo_mop := "7.301.1", descripcion := "Limpieza Manual de la Faja",
         unidad := "km", cantidad := 1, precio_unitario := 1000, subtotal := 1000 }])).Pairwise
      (fun a b => itemKey a ≠ itemKey b) :=
  C2_canonical_keys_unique _

set_option maxRecDepth 4000 in
/-- Counterexample to C2 as stated: two raw items with the same item code but different
descriptions both survive deduplication and validation, so the canonical set carries the
code "7.301.1" twice. -/
theorem C2_code_unique_counterexample :
    1 < ((_validate_budget_items (_deduplicate_budget_items
      [{ codigo_mop := "7.301.1", descripcion := "Limpieza Manual de la Faja",
         unidad := "km", cantidad := 1, precio_unitario := 1000, subtotal := 1000 },
       { codigo_mop := "7.301.1", descripcion := "Otra descripcion distinta",
         unidad := "km", cantidad := 2, precio_unitario := 2000, subtotal := 4000 }])).map
        (fun it => it.codigo_mop)).count "7.301.1" := by decide

/-- The dedup loop is the first-seen-wins recursion: relative to a seen set it keeps
exactly the first occurrence of every unseen key. -/
theorem dedupAux_eq_keepFirst (items : List BudgetItem) : ∀ seen : List (String × String),
    dedupAux seen items
      = keepFirstByKey (items.filter (fun x => decide (itemKey x ∉ seen))) := by
  induction items with
  | nil =>
    intro seen
    simp [dedupAux, keepFirstByKey]
  | cons x rest ih =>
    intro seen
    by_cases hx : itemKey x ∈ seen
    · rw [show dedupAux seen (x :: rest) = dedupAux seen rest from by
        simp [dedupAux, hx]]
      rw [List.filter_cons]
      rw [show (decide (itemKey x ∉ seen)) = false from by simp [hx]]
      simp only [Bool.false_eq_true, if_false]
      exact ih seen
    · rw [show dedupAux seen (x :: rest)
          = x :: dedupAux (itemKey x :: seen) rest from by simp [dedupAux, hx]]
      rw [List.filter_cons]
      rw [show (decide (itemKey x ∉ seen)) = true from by simp [hx]]
      simp only [if_true]
      rw [keepFirstByKey]
      congr 1
      rw [ih (itemKey x :: seen), List.filter_filter]
      congr 1
      apply List.filter_congr
      intro a _
      by_cases h1 : itemKey a = itemKey x <;> by_cases h2 : itemKey a ∈ seen <;>
        simp [h1, h2]

/-- C3 (amended): for items sharing a dedup key, canonicalization always keeps the
first-seen candidate — the completeness score is never consulted.  Deduplication equals
the first-seen-wins recursion `keepFirstByKey`. -/
theorem C3_dedup_keeps_first_seen (items : List BudgetItem) :
    _deduplicate_budget_items items = keepFirstByKey items := by
  rw [_deduplicate_budget_items, dedupAux_eq_keepFirst]
  congr 1
  apply List.filter_eq_self.mpr
  intro a _
  simp

set_option maxRecDepth 4000 in
/-- Counterexample to C3 as stated: of two duplicates with the same key, the first-seen
incomplete one (missing unit price, strictly lower completeness score) survives
deduplication, and validation then drops it — the more complete record does not survive. -/
theorem C3_completeness_counterexample :
    completenessScore
        { codigo_mop := "7.301.1", descripcion := "Limpieza Manual de la Faja",
          unidad := "km", cantidad := 5, precio_unitario := 0, subtotal := 0 }
      < completenessScore
        { codigo_mop := "7.301.1", descripcion := "Limpieza Manual de la Faja",
          unidad := "km", cantidad := 5, precio_unitario := 1000, subtotal := 5000 } ∧
    _deduplicate_budget_items
      [{ codigo_mop := "7.301.1", descripcion := "Limpieza Manual de la Faja",
         unidad := "km", cantidad := 5, precio_unitario := 0, subtotal := 0 },
       { codigo_mop := "7.301.1", descripcion := "Limpieza Manual de la Faja",
         unidad := "km", cantidad := 5, precio_unitario := 1000, subtotal := 5000 }]
      = [{ codigo_mop := "7.301.1", descripcion := "Limpieza Manual de la Faja",
           unidad := "km", cantidad := 5, precio_unitario := 0, subtotal := 0 }] ∧
    _validate_budget_items (_deduplicate_budget_items
      [{ codigo_mop := "7.301.1", descripcion := "Limpieza Manual de la Faja",
         unidad := "km", cantidad := 5, precio_unitario := 0, subtotal := 0 },
       { codigo_mop := "7.301.1", descripcion := "Limpieza Manual de la Faja",
         unidad := "km", cantidad := 5, precio_unitario := 1000, subtotal := 5000 }]) = [] := by
  refine ⟨by decide, by decide, by decide⟩

/-- C6: with a readable document, the OCR fallback branch runs if and only if the merged
primary results have text length < 1000 AND table count < 2 AND line-item count < 5; and
the OCR strategy processes at most 5 pages (`range(min(5, len(doc)))`). -/
theorem C6_ocr_fallback_iff :
    (∀ (primary : List (Option MethodResult)) (ocr : Option MethodResult)
        (extract_pi : String → List (String × String))
        (extract_totals : String → List (String × ℚ)),
      (extract_comprehensive true primary ocr extract_pi extract_totals).2 = true ↔
        ((foldPrimary primary).text_content.length < 1000 ∧
         (foldPrimary primary).tables.length < 2 ∧
         (foldPrimary primary).budget_items.length < 5)) ∧
    ∀ total_pages : Nat, (ocr_page_range total_pages).length ≤ 5 := by
  constructor
  · intro primary ocr extract_pi extract_totals
    show _needs_fallback (foldPrimary primary) = true ↔ _
    simp [_needs_fallback, and_assoc]
  · intro total_pages
    simp only [ocr_page_range, List.length_range]
    omega

/-- All primary methods failed: the fold leaves the accumulator unchanged. -/
theorem foldl_mergeStep_failed (ms : List (Option MethodResult))
    (h : ∀ m ∈ ms, methodFailed m) :
    ∀ acc : ExtractionResults, ms.foldl mergeStep acc = acc := by
  induction ms with
  | nil => intro acc; rfl
  | cons m rest ih =>
    intro acc
    have hrest : ∀ x ∈ rest, methodFailed x := fun x hx => h x (List.mem_cons_of_mem _ hx)
    have hm := h m (List.mem_cons_self _ _)
    cases m with
    | none => exact ih hrest acc
    | some mr =>
      have hs := hm mr rfl
      simp only [List.foldl_cons, mergeStep, hs, Bool.false_eq_true, if_false]
      exact ih hrest acc

/-- C7: when zero extraction strategies succeed (every primary method and the OCR
fallback either threw or reported failure), `extract_comprehensive` still returns a
well-formed summary with an empty budget-item list and confidence score 0 — including
when the document itself failed validation. -/
theorem C7_zero_success_extraction (pdf_valid : Bool)
    (primary : List (Option MethodResult)) (ocr : Option MethodResult)
    (extract_pi : String → List (String × String))
    (extract_totals : String → List (String × ℚ))
    (hp : ∀ m ∈ primary, methodFailed m) (ho : methodFailed ocr) :
    ((extract_comprehensive pdf_valid primary ocr extract_pi extract_totals).1).budget_items
        = [] ∧
    ((extract_comprehensive pdf_valid primary ocr extract_pi extract_totals).1).confidence_score
        = 0 := by
  cases pdf_valid with
  | false => exact ⟨rfl, rfl⟩
  | true =>
    have hfold : foldPrimary primary = initResults :=
      foldl_mergeStep_failed primary hp initResults
    have hrf : runFallback initResults ocr = initResults := by
      cases ocr with
      | none => rfl
      | some o => simp [runFallback, ho o rfl, _needs_fallback]
    have key : extract_comprehensive true primary ocr extract_pi extract_totals
        = ({ initResults with confidence_score := _calculate_confidence initResults },
           true) := by
      unfold extract_comprehensive
      rw [if_neg (by simp), hfold, hrf]
      rfl
    rw [key]
    refine ⟨rfl, ?_⟩
    show _calculate_confidence initResults = 0
    norm_num [_calculate_confidence, initResults]

/-- Witness for C7: a run in which one method threw and one returned a failed result. -/
theorem C7_zero_success_extraction_witness :
    ((extract_comprehensive true
        [none, some { success := false, text := "x", tables := [], budget_items := [] }]
        none (fun _ => []) (fun _ => [])).1).budget_items = [] ∧
    ((extract_comprehensive true
        [none, some { success := false, text := "x", tables := [], budget_items := [] }]
        none (fun _ => []) (fun _ => [])).1).confidence_score = 0 := by
  apply C7_zero_success_extraction
  · intro m hm
    rcases List.mem_cons.mp hm with rfl | hm2
    · intro mr he
      cases he
    · rcases List.mem_cons.mp hm2 with rfl | hm3
      · intro mr he
        cases he
        rfl
      · cases hm3
  · intro mr he
    cases he

/-- Counterexample to C8 as stated: at full depth the risk and provider prompts are sent
even though the budget (basic-extraction) prompt failed — the later phases do execute. -/
theorem C8_later_phases_execute_counterexample :
    (_multi_prompt_analysis "full"
        (some { success := false, data := PromptData.mk [] [] [] })
        (some { success := true, data := PromptData.mk [] [] [] })
        (some { success := true, data := PromptData.mk [] [] [] })).budget_analysis
      = none ∧
    "risk" ∈ (_multi_prompt_analysis "full"
        (some { success := false, data := PromptData.mk [] [] [] })
        (some { success := true, data := PromptData.mk [] [] [] })
        (some { success := true, data := PromptData.mk [] [] [] })).executed_prompts ∧
    "provider" ∈ (_multi_prompt_analysis "full"
        (some { success := false, data := PromptData.mk [] [] [] })
        (some { success := true, data := PromptData.mk [] [] [] })
        (some { success := true, data := PromptData.mk [] [] [] })).executed_prompts := by
  refine ⟨?_, ?_, ?_⟩ <;> simp [_multi_prompt_analysis, storeIfSuccess]

/-- C8 (amended): whenever the budget prompt fails (thrown or unsuccessful), the
consolidated result is the basic fallback analysis — confidence score 40 (the low fixed
ceiling) and a high-priority manual-review recommendation — and later-phase results are
discarded, so no later-phase failure can fail the job; the later prompts do still
execute at full or detailed depth. -/
theorem C8_budget_failure_basic_fallback (depth : String)
    (budget risk provider : Option PromptResult) (pc : ProcessedContent)
    (hb : ∀ pr, budget = some pr → pr.success = false) :
    _consolidate_and_correct_analysis
        (_multi_prompt_analysis depth budget risk provider) pc
      = .basic (_create_basic_analysis pc) ∧
    (_create_basic_analysis pc).confidence_score = 40 ∧
    { categoria := "técnica", recomendacion := "Revisar análisis manualmente",
      prioridad := "alta" } ∈ (_create_basic_analysis pc).recomendaciones_especificas ∧
    ((depth = "full" ∨ depth = "detailed") →
      "risk" ∈ (_multi_prompt_analysis depth budget risk provider).executed_prompts ∧
      "provider" ∈ (_multi_prompt_analysis depth budget risk provider).executed_prompts) := by
  have hstore : storeIfSuccess budget = none := by
    cases budget with
    | none => rfl
    | some pr => simp [storeIfSuccess, hb pr rfl]
  refine ⟨?_, rfl, ?_, ?_⟩
  · unfold _multi_prompt_analysis _consolidate_and_correct_analysis
    by_cases hd : depth = "full" ∨ depth = "detailed"
    · rw [if_pos hd]
      simp [hstore]
    · rw [if_neg hd]
      simp [hstore]
  · simp [_create_basic_analysis]
  · intro hd
    unfold _multi_prompt_analysis
    rw [if_pos hd]
    exact ⟨by simp, by simp⟩

/-- Witness for C8 (amended) at a concrete failed budget prompt. -/
theorem C8_budget_failure_basic_fallback_witness :
    _consolidate_and_correct_analysis
        (_multi_prompt_analysis "full"
          (some { success := false, data := PromptData.mk [] [] [] })
          none none)
        { total_bruto := 0, processed_items := [] }
      = .basic (_create_basic_analysis { total_bruto := 0, processed_items := [] }) ∧
    (_create_basic_analysis { total_bruto := 0, processed_items := [] }).confidence_score
      = 40 ∧
    { categoria := "técnica", recomendacion := "Revisar análisis manualmente",
      prioridad := "alta" }
      ∈ (_create_basic_analysis
          { total_bruto := 0, processed_items := [] }).recomendaciones_especificas ∧
    (("full" : String) = "full" ∨ ("full" : String) = "detailed" →
      "risk" ∈ (_multi_prompt_analysis "full"
          (some { success := false, data := PromptData.mk [] [] [] })
          none none).executed_prompts ∧
      "provider" ∈ (_multi_prompt_analysis "full"
          (some { success := false, data := PromptData.mk [] [] [] })
          none none).executed_prompts) :=
  C8_budget_failure_basic_fallback "full"
    (some { success := false, data := PromptData.mk [] [] [] })
    none none { total_bruto := 0, processed_items := [] }
    (by
      intro pr h
      cases h
      rfl)

/-- C9: the progress value written to the job status record never decreases across the
successive updates of one run, for single-document runs and for batch runs of any size
and any failure point. -/
theorem C9_progress_monotone :
    (∀ extract_ok analyze_ok : Bool,
      (single_pdf_progress extract_ok analyze_ok).Chain' (fun x y => x ≤ y)) ∧
    (∀ (n : Nat) (content_ok analyze_ok : Bool),
      (multi_pdf_progress n content_ok analyze_ok).Chain' (fun x y => x ≤ y)) := by
  constructor
  · intro e a
    cases e <;> cases a <;>
      simp [single_pdf_progress, List.chain'_cons, List.chain'_singleton]
  · intro n c a
    apply List.Pairwise.chain'
    unfold multi_pdf_progress
    have hmono : ∀ i j : Nat, i < j →
        (⌊(5 : ℚ) + (i : ℚ) * (40 / (n : ℚ))⌋ : ℤ) ≤ ⌊(5 : ℚ) + (j : ℚ) * (40 / (n : ℚ))⌋ := by
      intro i j hij
      apply Int.floor_le_floor
      have h40 : (0:ℚ) ≤ 40 / (n : ℚ) := by positivity
      have hij2 : (i : ℚ) ≤ (j : ℚ) := by exact_mod_cast Nat.le_of_lt hij
      nlinarith
    have hge5 : ∀ idx : Nat, (5:ℤ) ≤ ⌊(5 : ℚ) + (idx : ℚ) * (40 / (n : ℚ))⌋ := by
      intro idx
      apply Int.le_floor.mpr
      have h40 : (0:ℚ) ≤ (idx : ℚ) * (40 / (n : ℚ)) := by positivity
      push_cast
      linarith
    have hle45 : ∀ idx : Nat, idx < n →
        (⌊(5 : ℚ) + (idx : ℚ) * (40 / (n : ℚ))⌋ : ℤ) ≤ 45 := by
      intro idx hidx
      have hn0 : 0 < n := Nat.lt_of_le_of_lt (Nat.zero_le idx) hidx
      have hn : (0:ℚ) < (n:ℚ) := by exact_mod_cast hn0
      have hidxq : (idx:ℚ) < (n:ℚ) := by exact_mod_cast hidx
      have hdivpos : (0:ℚ) < 40 / (n:ℚ) := by positivity
      have h1 : (idx:ℚ) * (40/(n:ℚ)) < (n:ℚ) * (40/(n:ℚ)) :=
        mul_lt_mul_of_pos_right hidxq hdivpos
      have h2 : (n:ℚ) * (40/(n:ℚ)) = 40 := by field_simp
      have h3 : (⌊(5 : ℚ) + (idx : ℚ) * (40 / (n : ℚ))⌋ : ℤ) < 46 := by
        apply Int.floor_lt.mpr
        push_cast
        linarith
      omega
    have hC : ∀ b ∈ (if c = true then
        [(45:ℤ), 50] ++ (if a = true then [100] else []) else []), (45:ℤ) ≤ b := by
      intro b hb
      cases c with
      | false => simp at hb
      | true =>
        cases a with
        | false =>
          simp only [if_true, if_false, Bool.false_eq_true, List.append_nil,
            List.mem_cons, List.not_mem_nil, or_false] at hb
          rcases hb with rfl | rfl <;> norm_num
        | true =>
          simp only [if_true, List.mem_append, List.mem_cons, List.not_mem_nil,
            or_false] at hb
          rcases hb with (rfl | rfl) | rfl <;> norm_num
    rw [List.pairwise_append]
    refine ⟨?_, ?_, ?_⟩
    · rw [List.pairwise_append]
      refine ⟨?_, ?_, ?_⟩
      · norm_num [List.pairwise_cons]
      · rw [List.pairwise_map]
        exact (List.pairwise_lt_range n).imp (fun h => hmono _ _ h)
      · intro x hx y hy
        rcases List.mem_map.mp hy with ⟨idx, _, rfl⟩
        have h5 := hge5 idx
        have hx05 : x = 0 ∨ x = 5 := by
          rcases List.mem_cons.mp hx with rfl | h2
          · exact Or.inl rfl
          · rcases List.mem_cons.mp h2 with rfl | h3
            · exact Or.inr rfl
            · cases h3
        rcases hx05 with rfl | rfl <;> omega
    · cases c <;> cases a <;> norm_num [List.pairwise_cons]
    · intro x hx b hb
      have h45 := hC b hb
      rcases List.mem_append.mp hx with hx2 | hxB
      · have hx05 : x = 0 ∨ x = 5 := by
          rcases List.mem_cons.mp hx2 with rfl | h2
          · exact Or.inl rfl
          · rcases List.mem_cons.mp h2 with rfl | h3
            · exact Or.inr rfl
            · cases h3
        rcases hx05 with rfl | rfl <;> omega
      · rcases List.mem_map.mp hxB with ⟨idx, hidx, rfl⟩
        have := hle45 idx (List.mem_range.mp hidx)
        omega

end BudgetAnalyzer
